import Mathlib

/-!
Verification of the vibe-news daily digest pipeline against its
natural-language specification.

Shallow embedding of the Python sources:
  * `src/newsroom/utils.py`            (date formatting, paths, time_ago)
  * `src/newsroom/sources/google_news.py` (GoogleNewsScraper)
  * `src/newsroom/summarizer.py`       (LLMSummarizer)
  * `src/scripts/generate.py`          (CLI entry point)
plus definitions modelled from the spec for the orchestrator, assembler
and writer, whose module `newsroom/generator.py` is not present in the
source tree.

External collaborators (the requests library, BeautifulSoup, the OpenAI
client, and the Python standard library strptime/strftime pair) are
modelled at their observable boundary: each call site receives an
explicit outcome value describing what the collaborator did, and the
embedded function mirrors the control flow of the Python code on that
outcome, with exceptions represented by an `Except` value that is
threaded exactly where Python would propagate them.
-/

/-- Python exceptions that the embedded code can raise.  Every
constructor models a subclass of `Exception` (no `BaseException`-only
exceptions such as KeyboardInterrupt arise in the modelled code), which
is what makes a bare `except Exception` handler exhaustive. -/
inductive PyExc where
  | requestException (msg : String)
  | httpError (msg : String)
  | attributeError (msg : String)
  | valueError (msg : String)
  | openAIError (msg : String)
  | otherExc (msg : String)
  deriving Repr, DecidableEq

/-- True exactly for exceptions caught by `except requests.RequestException`
(`HTTPError` is a subclass of `RequestException`). -/
def PyExc.isRequestException : PyExc → Bool
  | .requestException _ => true
  | .httpError _ => true
  | _ => false

/-- True for exceptions caught by a bare `except Exception` clause: all
modelled exceptions derive from `Exception`. -/
def PyExc.isException : PyExc → Bool
  | _ => true

/-- Calendar date (year, month, day). -/
structure Date where
  year : Nat
  month : Nat
  day : Nat
  deriving Repr, DecidableEq

/-- Wall-clock datetime as produced by Python `datetime` for this code:
second precision, no timezone. -/
structure DateTime where
  year : Nat
  month : Nat
  day : Nat
  hour : Nat
  minute : Nat
  second : Nat
  deriving Repr, DecidableEq

/-- Left-pad a number to two digits, as strftime `%m`, `%d`, `%H`, `%M`,
`%S` do. -/
def pad2 (n : Nat) : String :=
  if n < 10 then "0" ++ toString n else toString n

/-- Left-pad a number to four digits, as strftime `%Y` does. -/
def pad4 (n : Nat) : String :=
  if n < 10 then "000" ++ toString n
  else if n < 100 then "00" ++ toString n
  else if n < 1000 then "0" ++ toString n
  else toString n

/-- The strftime format `%Y-%m-%d` used throughout the code for date
keys and file names. -/
def fmtDateYMD (d : Date) : String :=
  pad4 d.year ++ "-" ++ pad2 d.month ++ "-" ++ pad2 d.day

/-- English month name, as strftime `%B` produces (month 1 = January);
out-of-range months yield the empty string. -/
def monthName : Nat → String
  | 1 => "January" | 2 => "February" | 3 => "March" | 4 => "April"
  | 5 => "May" | 6 => "June" | 7 => "July" | 8 => "August"
  | 9 => "September" | 10 => "October" | 11 => "November" | 12 => "December"
  | _ => ""

/-- Embeds `utils.format_date_for_title`: strftime `"%B %-d, %Y"` on the
given date (the Python default-to-today behaviour is modelled by passing
the resolved date explicitly). -/
def format_date_for_title (d : Date) : String :=
  monthName d.month ++ " " ++ toString d.day ++ ", " ++ toString d.year

/-- Embeds `utils.get_file_path`: join of `"content"` with the date
formatted `%Y-%m-%d` plus `.md`.  The directory component is the
string literal `"content"`; the function takes no output-directory
argument.  `now` stands for `datetime.now()` and is used when the date
argument is absent. -/
def get_file_path (now : Date) (date : Option Date) : String :=
  let d := date.getD now
  "content" ++ "/" ++ fmtDateYMD d ++ ".md"

/-- A timestamp string as consumed by `utils.time_ago` and produced by
`_parse_story_item`.  Python strftime with format `%Y-%m-%d %H:%M:%S`
always produces a string in canonical form, and strptime with the same
format succeeds exactly on canonical strings; the inductive separates
the two cases so the strptime boundary is explicit.  `canonical dt`
stands for the string `strftime(dt)`; `rawStr s` stands for any string
not in that format. -/
inductive Timestamp where
  | canonical (dt : DateTime)
  | rawStr (s : String)
  deriving Repr, DecidableEq

/-- Leap-year test of the proleptic Gregorian calendar (as Python
`datetime` uses). -/
def isLeapYear (y : Nat) : Bool :=
  y % 4 == 0 && (y % 100 != 0 || y % 400 == 0)

/-- Days in the months strictly before month `m` of year `y`
(month 1 = January). -/
def daysBeforeMonth (y m : Nat) : Nat :=
  let cum := [0, 0, 31, 59, 90, 120, 151, 181, 212, 243, 273, 304, 334]
  (cum.getD m 0) + (if 2 < m && isLeapYear y then 1 else 0)

/-- Proleptic-Gregorian ordinal day number as Python
`datetime.toordinal` computes it (day 1 = 0001-01-01). -/
def toOrdinal (dt : DateTime) : Nat :=
  365 * (dt.year - 1) + (dt.year - 1) / 4 - (dt.year - 1) / 100
    + (dt.year - 1) / 400 + daysBeforeMonth dt.year dt.month + dt.day

/-- Seconds since the calendar origin; datetime subtraction in
`time_ago` is the difference of these. -/
def toSeconds (dt : DateTime) : Nat :=
  86400 * toOrdinal dt + 3600 * dt.hour + 60 * dt.minute + dt.second

/-- Embeds `utils.time_ago`.  `now` stands for `datetime.now()`.  The
strptime call succeeds exactly on canonical timestamps; on any other
string the ValueError is re-raised as
`ValueError(f"Invalid timestamp format: ...")`, modelled by the
`Except.error` case.  The float arithmetic
`delta.total_seconds() / 3600` followed by `int(...)` truncation toward
zero is modelled by `Int.tdiv` (exact for the magnitudes involved). -/
def time_ago (now : DateTime) (ts : Timestamp) : Except PyExc String :=
  match ts with
  | .rawStr s =>
      .error (.valueError ("Invalid timestamp format: " ++ s))
  | .canonical dt =>
      let delta : Int := (toSeconds now : Int) - (toSeconds dt : Int)
      let hoursTrunc : Int := Int.tdiv delta 3600
      if delta < 86400 then
        .ok (toString hoursTrunc ++ "h ago")
      else
        .ok (toString (Int.tdiv delta 86400) ++ "d ago")

/-- Python `str.strip()` on the underlying character list: drop leading
and trailing whitespace. -/
def pyStrip (s : String) : String :=
  String.mk (((s.data.dropWhile Char.isWhitespace).reverse.dropWhile
    Char.isWhitespace).reverse)

/-- Helper for `pySplit`: scan the character list left to right, cutting
at each occurrence of the (non-empty) separator.  The fuel argument is
an upper bound on the number of steps, making the recursion structural. -/
def pySplitAux (sep : List Char) : Nat → List Char → List Char → List (List Char)
  | _, [], acc => [acc.reverse]
  | 0, l, acc => [acc.reverse ++ l]
  | fuel + 1, c :: rest, acc =>
    if sep.isPrefixOf (c :: rest) then
      acc.reverse :: pySplitAux sep fuel ((c :: rest).drop sep.length) []
    else
      pySplitAux sep fuel rest (c :: acc)

/-- Python `str.split(sep)` with a non-empty separator: splits on each
left-to-right occurrence of `sep`; a string with no occurrence yields a
one-element list. -/
def pySplit (s : String) (sep : String) : List String :=
  if sep.data.isEmpty then [s]
  else (pySplitAux sep.data s.data.length s.data []).map String.mk

/-- Python `sep.join(parts)`. -/
def pyJoin (sep : String) : List String → String
  | [] => ""
  | [x] => x
  | x :: y :: rest => x ++ sep ++ pyJoin sep (y :: rest)

/-- A story record as produced by `_parse_story_item` and consumed by
the rest of the pipeline.  The dictionary keys of the Python code become
fields; `ai_summary` is absent (`none`) when the scraper produces the
record and may be set later by the orchestrator, the only mutation the
data model allows. -/
structure Story where
  title : String
  url : String
  source : String
  published : Timestamp
  summary : Option String
  ai_summary : Option String
  deriving Repr, DecidableEq

/-- A pubDate text as consumed by `datetime.strptime(...,
"%a, %d %b %Y %H:%M:%S %Z")` in `_parse_story_item`: either a string in
that RSS format, carrying the datetime it denotes, or any other string,
on which strptime raises ValueError. -/
inductive RssDate where
  | wellFormed (dt : DateTime)
  | badFormat (s : String)
  deriving Repr, DecidableEq

/-- One `<item>` element of the RSS feed as BeautifulSoup presents it to
`_parse_story_item`: each child tag is either present with its text or
absent (`none`), in which case accessing `.text` on it raises
AttributeError. -/
structure RssItem where
  title : Option String
  link : Option String
  pubDate : Option RssDate
  description : Option String
  deriving Repr, DecidableEq

/-- Embeds `GoogleNewsScraper._parse_story_item`.  The try body accesses
`item.title.text`, parses `item.pubDate.text` with strptime, and builds
the dictionary reading `item.link.text`; an absent tag raises
AttributeError and a malformed pubDate raises ValueError, both caught by
the `except (AttributeError, ValueError)` clause which returns None. -/
def _parse_story_item (item : RssItem) : Option Story :=
  match item.title with
  | none => none
  | some titleText =>
    let title_parts := pySplit titleText " - "
    let source := if 1 < title_parts.length then title_parts.getLastD ""
                  else "Unknown Source"
    let title := if 1 < title_parts.length then
                   pyJoin " - " title_parts.dropLast
                 else title_parts.headD ""
    match item.pubDate with
    | none => none
    | some (.badFormat _) => none
    | some (.wellFormed pub_date) =>
      match item.link with
      | none => none
      | some linkText =>
        some { title := pyStrip title
               url := linkText
               source := pyStrip source
               published := .canonical pub_date
               summary := item.description
               ai_summary := none }

/-- Outcome of the `requests.get` call and the BeautifulSoup parse in
`fetch_top_stories`: either the transport raised `RequestException`, or
a response arrived with an HTTP status and a list of `<item>` elements
found in its body (unparseable or non-RSS content simply yields no
items — the lxml-xml parser does not raise on malformed input). -/
inductive FetchOutcome where
  | netError (msg : String)
  | response (status : Nat) (items : List RssItem)
  deriving Repr, DecidableEq

/-- BeautifulSoup `find_all` with a `limit` keyword: a limit of 0 is
falsy in Python and means no limit; a positive limit keeps at most that
many matches, in document order. -/
def findAllLimit (limit : Nat) (items : List RssItem) : List RssItem :=
  if limit = 0 then items else items.take limit

/-- The story-accumulation loop of `fetch_top_stories`: append the
parse of each item when it is not None, preserving iteration order. -/
def parseLoop : List RssItem → List Story
  | [] => []
  | item :: rest =>
      match _parse_story_item item with
      | some story => story :: parseLoop rest
      | none => parseLoop rest

/-- The try body of `GoogleNewsScraper.fetch_top_stories` as a fallible
computation: `requests.get` may raise `RequestException`;
`raise_for_status` raises `HTTPError` on a 4xx/5xx status; then the
items are collected with `find_all(..., limit=max_stories)` and parsed
one by one, returning early with `[]` when no items were found. -/
def fetch_top_storiesRun (max_stories : Nat) (outcome : FetchOutcome) :
    Except PyExc (List Story) :=
  match outcome with
  | .netError msg => .error (.requestException msg)
  | .response status items =>
      if 400 ≤ status then .error (.httpError (toString status))
      else
        let found := findAllLimit max_stories items
        if found.isEmpty then .ok []
        else .ok (parseLoop found)

/-- Embeds the whole of `fetch_top_stories` including its two except
clauses: `except requests.RequestException` returns `[]`, and the
following bare `except Exception` also returns `[]`; an exception
matching neither clause would propagate (`Except.error`). -/
def fetch_top_storiesCaught (max_stories : Nat) (outcome : FetchOutcome) :
    Except PyExc (List Story) :=
  match fetch_top_storiesRun max_stories outcome with
  | .ok stories => .ok stories
  | .error e =>
      if e.isRequestException then .ok []
      else if e.isException then .ok []
      else .error e

/-- Embeds `GoogleNewsScraper.get_stories`, which just delegates to
`fetch_top_stories`.  The error branch is unreachable (see the C10
theorem): every exception the body can raise is caught by one of the two
except clauses. -/
def get_stories (max_stories : Nat) (outcome : FetchOutcome) : List Story :=
  match fetch_top_storiesCaught max_stories outcome with
  | .ok stories => stories
  | .error _ => []

/-- Outcome of one `client.chat.completions.create` call in
`LLMSummarizer._generate_completion`: the API raised `OpenAIError`, an
unexpected exception occurred, or a response arrived whose first-choice
message content is the given optional string (`None` content makes the
subsequent `.strip()` raise AttributeError). -/
inductive LlmOutcome where
  | apiError (msg : String)
  | unexpectedError (msg : String)
  | completion (content : Option String)
  deriving Repr, DecidableEq

/-- The try body of `LLMSummarizer._generate_completion`: perform the
API call and return `response.choices[0].message.content.strip()`. -/
def _generate_completionRun (outcome : LlmOutcome) : Except PyExc String :=
  match outcome with
  | .apiError msg => .error (.openAIError msg)
  | .unexpectedError msg => .error (.otherExc msg)
  | .completion none => .error (.attributeError "NoneType has no attribute strip")
  | .completion (some content) => .ok (pyStrip content)

/-- Embeds `_generate_completion` with its handlers as a fallible
computation: `except OpenAIError` logs and returns None, the following
bare `except Exception` logs and returns None; an exception matching
neither clause would propagate (`Except.error`). -/
def _generate_completionCaught (outcome : LlmOutcome) :
    Except PyExc (Option String) :=
  match _generate_completionRun outcome with
  | .ok s => .ok (some s)
  | .error e =>
      match e with
      | .openAIError _ => .ok none
      | e => if e.isException then .ok none else .error e

/-- Embeds `LLMSummarizer._generate_completion` as its caller sees it.
The prompt, content and max-token arguments are forwarded to the API
call but do not influence which branch of the Python code runs, so the
call outcome oracle carries all the behaviour; the error fallback is
unreachable (see the C6 theorem). -/
def _generate_completion (_prompt _content : String) (_max_tokens : Nat)
    (outcome : LlmOutcome) : Option String :=
  match _generate_completionCaught outcome with
  | .ok r => r
  | .error _ => none

/-- The class constant `LLMSummarizer.ARTICLE_PROMPT`. -/
def ARTICLE_PROMPT : String :=
  "You are a news summarizer. Create concise, factual summaries " ++
  "in 2-3 sentences. Focus on key information and maintain " ++
  "journalistic neutrality."

/-- The class constant `LLMSummarizer.DAILY_PROMPT`. -/
def DAILY_PROMPT : String :=
  "You are a news editor creating daily briefings. Synthesize " ++
  "multiple stories into a concise overview that captures the " ++
  "most significant developments of the day. Be factual and " ++
  "objective."

/-- Embeds `LLMSummarizer.summarize_article`: a single
`_generate_completion` call on the article prompt (the default
`article_max_tokens` is 150). -/
def summarize_article (content : String) (outcome : LlmOutcome) : Option String :=
  _generate_completion ARTICLE_PROMPT
    ("Summarize this news article:\n\n" ++ content) 150 outcome

/-- Embeds `LLMSummarizer.summarize_day`, instrumented with the number
of backend calls performed (the second component): an empty summary
list returns None immediately with no API call; otherwise the truthy
(non-empty) summaries are bulleted, joined, and passed to one
`_generate_completion` call (the default `daily_max_tokens` is 200). -/
def summarize_day (summaries : List String) (outcome : LlmOutcome) :
    Option String × Nat :=
  if summaries.isEmpty then (none, 0)
  else
    let combined := pyJoin "\n\n" ((summaries.filter (· ≠ "")).map (fun s => "- " ++ s))
    (_generate_completion DAILY_PROMPT
      ("Create a brief overview of the top stories for the day based on these summaries:\n\n"
        ++ combined) 200 outcome, 1)

/-- A date string supplied on the command line, as consumed by
`datetime.strptime(date_str, "%Y-%m-%d")` in `scripts/generate.py`:
either in canonical `YYYY-MM-DD` form, carrying the date it denotes, or
any other string, on which strptime raises ValueError. -/
inductive DateArg where
  | canonical (d : Date)
  | malformed (s : String)
  deriving Repr, DecidableEq

/-- Embeds `scripts/generate.parse_date`: canonical strings parse,
anything else raises `ValueError("Invalid date format. Use YYYY-MM-DD")`. -/
def parse_date (arg : DateArg) : Except PyExc Date :=
  match arg with
  | .canonical d => .ok d
  | .malformed _ => .error (.valueError "Invalid date format. Use YYYY-MM-DD")

/-- The parsed command-line arguments of `scripts/generate.py`.  The
model and temperature flags are forwarded to the generator untouched
and never branch on, so they are omitted; argparse `type=int` accepts
any integer for `--stories`, hence `Int`. -/
structure CliArgs where
  force : Bool
  date : Option DateArg
  stories : Int
  noLlm : Bool
  outputDir : String
  verbose : Bool
  deriving Repr, DecidableEq

/-- Result of a run of `main`: the `sys.exit` status, and whether
control reached the try block that constructs the generator and runs
the pipeline (i.e. whether any pipeline work was started). -/
structure MainResult where
  exitCode : Nat
  pipelineStarted : Bool
  deriving Repr, DecidableEq

/-- Embeds `scripts/generate.main` after argument parsing.  `pipeline`
is the joint outcome of constructing `NewsDigestGenerator` and calling
`generate_digest` (the module lives outside the provided sources): a
boolean success value, or an exception, which the surrounding
`except Exception` converts to exit status 1.  A malformed date exits 1
before the try block; no other argument validation is performed — in
particular `args.stories` is passed through unchecked. -/
def cliMain (args : CliArgs) (pipeline : Except PyExc Bool) : MainResult :=
  match args.date with
  | some (.malformed _) => { exitCode := 1, pipelineStarted := false }
  | _ =>
      match pipeline with
      | .ok true => { exitCode := 0, pipelineStarted := true }
      | .ok false => { exitCode := 1, pipelineStarted := true }
      | .error _ => { exitCode := 1, pipelineStarted := true }

/-- Python `s[:n]`, a prefix of a string, used to model a partially
written temporary file. -/
def pyTake (s : String) (n : Nat) : String :=
  String.mk (s.data.take n)

/-- The output directory contents, as an association list from file
path to file content.  Directories themselves are not modelled; the
spec makes directory-creation failures fatal before any write step, so
they do not interact with the atomicity or idempotency properties. -/
abbrev FS : Type := List (String × String)

/-- Content at a path, `none` when no file exists there. -/
def fsGet : FS → String → Option String
  | [], _ => none
  | (k, v) :: rest, p => if k = p then some v else fsGet rest p

/-- Delete the file at a path. -/
def fsRemove : FS → String → FS
  | [], _ => []
  | (k, v) :: rest, p =>
      if k = p then fsRemove rest p else (k, v) :: fsRemove rest p

/-- Create or replace the file at a path. -/
def fsSet (fs : FS) (p c : String) : FS :=
  (p, c) :: fsRemove fs p

/-- Modelled from the spec: the temporary-file path the Digest Writer
uses, in the same directory as the canonical path (section 4.3; the
writer itself lives in `newsroom/generator.py`, which is not among the
provided sources). -/
def tmp_path (p : String) : String := p ++ ".tmp"

/-- Result of a Digest Writer call: overall success, and the distinct
already-exists signal of section 4.3. -/
structure WriteResult where
  success : Bool
  alreadyExists : Bool
  deriving Repr, DecidableEq

/-- Modelled from the spec: `write(digest, output_dir, force)` of the
Digest Writer (section 4.3), whose implementation in
`newsroom/generator.py` is not among the provided sources.  If the
canonical path exists and force is not set it fails with the distinct
already-exists signal; otherwise it writes the full content to a
temporary file in the same directory and renames it into place,
returning success only once the rename has completed. -/
def write_digest (fs : FS) (path content : String) (force : Bool) :
    WriteResult × FS :=
  if (fsGet fs path).isSome && !force then
    ({ success := false, alreadyExists := true }, fs)
  else
    let fsTemp := fsSet fs (tmp_path path) content
    let fsDone := fsSet (fsRemove fsTemp (tmp_path path)) path content
    ({ success := true, alreadyExists := false }, fsDone)

/-- The points at which a crash or interruption can strike a Digest
Writer call that passed its existence check: before any file operation,
midway through writing the temporary file (with only a prefix of the
content flushed), after the temporary file is complete, and after the
atomic rename. -/
inductive CrashPoint where
  | beforeWork
  | duringTempWrite (flushed : Nat)
  | afterTempWrite
  | afterRename
  deriving Repr, DecidableEq

/-- Modelled from the spec: the directory state left behind when the
writer is interrupted at the given point (section 4.3; the rename step
itself is atomic, an operating-system guarantee the spec relies on). -/
def writeCrashState (fs : FS) (path content : String) : CrashPoint → FS
  | .beforeWork => fs
  | .duringTempWrite flushed => fsSet fs (tmp_path path) (pyTake content flushed)
  | .afterTempWrite => fsSet fs (tmp_path path) content
  | .afterRename =>
      fsSet (fsRemove (fsSet fs (tmp_path path) content) (tmp_path path)) path content

/-- Modelled from the spec: the summary line of a rendered story entry,
preferring the AI summary over the raw feed summary over an empty
fallback (section 4.2). -/
def storySummaryLine (s : Story) : String :=
  s.ai_summary.getD (s.summary.getD "")

/-- Modelled from the spec: one rendered story entry — title, source
attribution, relative-time annotation from `time_ago`, and the summary
line (sections 4.2 and 6).  The Assembler lives in
`newsroom/generator.py`, which is not among the provided sources; the
relative-time helper it calls is embedded from `utils.py`, and a
ValueError raised by that helper propagates out of rendering. -/
def renderStory (now : DateTime) (s : Story) : Except PyExc String := do
  let rel ← time_ago now s.published
  .ok ("## " ++ s.title ++ "\n\n*" ++ s.source ++ " | " ++ rel ++ "*\n\n"
       ++ storySummaryLine s)

/-- Modelled from the spec: render the story entries in input order
(section 4.2). -/
def renderStories (now : DateTime) : List Story → Except PyExc (List String)
  | [] => .ok []
  | s :: rest => do
      let b ← renderStory now s
      let bs ← renderStories now rest
      .ok (b :: bs)

/-- Modelled from the spec: `assemble(date, stories, overview)` of the
Digest Assembler (section 4.2), whose implementation in
`newsroom/generator.py` is not among the provided sources: a title
block embedding the long-form date, an optional overview section, then
one entry per story in input order. -/
def assemble (d : Date) (now : DateTime) (stories : List Story)
    (overview : Option String) : Except PyExc String := do
  let blocks ← renderStories now stories
  let header := "# News Digest: " ++ format_date_for_title d ++ "\n\n"
  let overviewSection :=
    match overview with
    | some o => "## Overview\n\n" ++ o ++ "\n\n"
    | none => ""
  .ok (header ++ overviewSection ++ pyJoin "\n\n" blocks)

/-- Configuration of the Digest Orchestrator, mirroring the
`NewsDigestGenerator` constructor arguments that influence control
flow. -/
structure OrchConfig where
  max_stories : Nat
  use_llm : Bool
  output_dir : String
  deriving Repr, DecidableEq

/-- The collaborators of one orchestrator run: the story list the
Story Provider yields for this run, and the per-call outcomes of the
Summarization Provider. -/
structure Collaborators where
  fetched : List Story
  articleLlm : String → LlmOutcome
  dayLlm : List String → LlmOutcome

/-- Count of collaborator invocations performed by one orchestrator
run, used to state the no-op and work-at-most-once properties. -/
structure Trace where
  fetchCalls : Nat
  articleCalls : Nat
  dayCalls : Nat
  writeCalls : Nat
  deriving Repr, DecidableEq

/-- The trace of a run that performed no collaborator work at all. -/
def noWorkTrace : Trace := ⟨0, 0, 0, 0⟩

/-- Result of one orchestrator run: reported success, resulting output
directory, and the collaborator-invocation trace. -/
structure GenResult where
  success : Bool
  fs : FS
  trace : Trace

/-- Modelled from the spec: the deterministic artifact location
`output_dir/<date in YYYY-MM-DD>.md` the Orchestrator and Writer key on
(sections 4.1 and 4.3). -/
def digestPath (output_dir : String) (d : Date) : String :=
  output_dir ++ "/" ++ fmtDateYMD d ++ ".md"

/-- Modelled from the spec: the per-story summarization stage of the
Orchestrator (section 4.1), performed only when summarization is
enabled — each fetched story gets its `ai_summary` set from a
`summarize_article` call on its article text, falling back to the raw
feed summary as the text; per-article failures leave the field absent. -/
def storiesWithSummaries (cfg : OrchConfig) (collab : Collaborators) : List Story :=
  if cfg.use_llm then
    collab.fetched.map (fun s =>
      { s with ai_summary := (summarize_article (s.summary.getD "")
          (collab.articleLlm (s.summary.getD ""))) })
  else collab.fetched

/-- Modelled from the spec: the daily-overview stage (section 4.1) —
requested only when summarization is enabled, over the set of obtained
summaries (`summarize_day` itself declines an empty set with no backend
call); the second component counts backend calls. -/
def overviewCall (cfg : OrchConfig) (collab : Collaborators) : Option String × Nat :=
  if cfg.use_llm then
    let sums := (storiesWithSummaries cfg collab).filterMap (fun s => s.ai_summary)
    summarize_day sums (collab.dayLlm sums)
  else (none, 0)

/-- Number of per-article Summarization Provider calls the run makes. -/
def articleCallCount (cfg : OrchConfig) (collab : Collaborators) : Nat :=
  if cfg.use_llm then collab.fetched.length else 0

/-- Modelled from the spec: the work the Orchestrator performs once the
no-op fast path has been passed (section 4.1): abort on an empty story
list; otherwise summarize, assemble and write atomically, converting an
exception escaping assembly into a failure return. -/
def generate_digest_work (cfg : OrchConfig) (d : Date) (now : DateTime)
    (collab : Collaborators) (force : Bool) (fs : FS) (path : String) : GenResult :=
  if collab.fetched.isEmpty then
    { success := false, fs := fs, trace := ⟨1, 0, 0, 0⟩ }
  else
    match assemble d now (storiesWithSummaries cfg collab) (overviewCall cfg collab).1 with
    | .error _ =>
        { success := false, fs := fs,
          trace := ⟨1, articleCallCount cfg collab, (overviewCall cfg collab).2, 0⟩ }
    | .ok content =>
        let wr := write_digest fs path content force
        { success := wr.1.success, fs := wr.2,
          trace := ⟨1, articleCallCount cfg collab, (overviewCall cfg collab).2, 1⟩ }

/-- Modelled from the spec: `generate_digest(date, force)` of the
Digest Orchestrator (section 4.1), whose implementation in
`newsroom/generator.py` is not among the provided sources.  It resolves
the artifact path; if the artifact exists and force is not set it
returns success immediately with no collaborator work; otherwise it
performs the fetch/summarize/assemble/write sequence. -/
def generate_digest (cfg : OrchConfig) (d : Date) (now : DateTime)
    (collab : Collaborators) (force : Bool) (fs : FS) : GenResult :=
  let path := digestPath cfg.output_dir d
  if (fsGet fs path).isSome && !force then
    { success := true, fs := fs, trace := noWorkTrace }
  else
    generate_digest_work cfg d now collab force fs path

/-- A fixed collaborator bundle whose Story Provider yielded no
stories, used to instantiate the empty-fetch orchestrator behaviour. -/
def emptyFetchCollab : Collaborators :=
  { fetched := []
    articleLlm := fun _ => .apiError "unused"
    dayLlm := fun _ => .apiError "unused" }

/-- The story-accumulation loop is exactly `filterMap` of the
per-item parser: the result is the subsequence of successfully parsed
items, in iteration order. -/
theorem parseLoop_eq_filterMap (items : List RssItem) :
    parseLoop items = items.filterMap _parse_story_item := by
  induction items with
  | nil => rfl
  | cons item rest ih =>
      cases h : _parse_story_item item with
      | none => simp [parseLoop, h, ih, List.filterMap_cons]
      | some s => simp [parseLoop, h, ih, List.filterMap_cons]

/-- C10: for every feed response — network errors, HTTP error statuses,
unparseable content, and unexpected exceptions included —
`GoogleNewsScraper.get_stories` never raises an exception to its
caller: every failure path is caught by one of the two except clauses
and yields a (possibly empty) list of story records. -/
theorem C10_get_stories_never_raises :
    ∀ (max_stories : Nat) (outcome : FetchOutcome),
      ∃ stories, fetch_top_storiesCaught max_stories outcome = .ok stories
        ∧ get_stories max_stories outcome = stories := by
  intro n outcome
  cases outcome with
  | netError msg =>
      exact ⟨[], rfl, rfl⟩
  | response status items =>
      by_cases hs : 400 ≤ status
      · refine ⟨[], ?_, ?_⟩ <;>
          simp [fetch_top_storiesCaught, fetch_top_storiesRun, get_stories, hs,
            PyExc.isRequestException]
      · by_cases he : (findAllLimit n items).isEmpty
        · refine ⟨[], ?_, ?_⟩ <;>
            simp [fetch_top_storiesCaught, fetch_top_storiesRun, get_stories, hs, he]
        · refine ⟨parseLoop (findAllLimit n items), ?_, ?_⟩ <;>
            simp [fetch_top_storiesCaught, fetch_top_storiesRun, get_stories, hs, he]

/-- C4: for every feed response and every positive `max_stories`,
`get_stories` returns at most `max_stories` story records (the
`find_all` limit examines at most that many items, and parsing only
drops items). -/
theorem C4_get_stories_bounded :
    ∀ (max_stories : Nat) (outcome : FetchOutcome), 0 < max_stories →
      (get_stories max_stories outcome).length ≤ max_stories := by
  intro n outcome hn
  cases outcome with
  | netError msg =>
      simp [get_stories, fetch_top_storiesCaught, fetch_top_storiesRun,
        PyExc.isRequestException]
  | response status items =>
      by_cases hs : 400 ≤ status
      · simp [get_stories, fetch_top_storiesCaught, fetch_top_storiesRun, hs,
          PyExc.isRequestException]
      · by_cases he : (findAllLimit n items).isEmpty
        · simp [get_stories, fetch_top_storiesCaught, fetch_top_storiesRun, hs, he]
        · have hres : get_stories n (.response status items)
              = parseLoop (findAllLimit n items) := by
            simp [get_stories, fetch_top_storiesCaught, fetch_top_storiesRun, hs, he]
          rw [hres, parseLoop_eq_filterMap]
          calc ((findAllLimit n items).filterMap _parse_story_item).length
              ≤ (findAllLimit n items).length := List.length_filterMap_le _ _
            _ ≤ n := by
                have hne : n ≠ 0 := Nat.pos_iff_ne_zero.mp hn
                simp only [findAllLimit, hne, if_false, List.length_take]
                exact Nat.min_le_left _ _

/-- C4 witness: a concrete bounded fetch. -/
theorem C4_get_stories_bounded_witness :
    0 < 10 ∧ (get_stories 10 (.netError "connection refused")).length ≤ 10 :=
  ⟨by decide, C4_get_stories_bounded 10 (.netError "connection refused") (by decide)⟩

/-- C5: on a successful response the returned story sequence is exactly
the subsequence of the examined items that parse successfully, in the
original feed order with no re-sorting (`filterMap` of the parser over
the limited window); an item missing its title or link tag parses to
None and is dropped; and an invalid item does not make the fetch fail
when another valid story is among the examined items — the result is
then non-empty, so the run is not aborted as an empty source. -/
theorem C5_filtering_and_order :
    (∀ items, parseLoop items = items.filterMap _parse_story_item)
    ∧ (∀ max_stories status items, status < 400 →
        get_stories max_stories (.response status items)
          = (findAllLimit max_stories items).filterMap _parse_story_item)
    ∧ (∀ item, item.title = none ∨ item.link = none →
        _parse_story_item item = none)
    ∧ (∀ max_stories status items bad good s, status < 400 →
        bad ∈ findAllLimit max_stories items →
        _parse_story_item bad = none →
        good ∈ findAllLimit max_stories items →
        _parse_story_item good = some s →
        get_stories max_stories (.response status items) ≠ []) := by
  have hloop := parseLoop_eq_filterMap
  have hrun : ∀ max_stories status items, status < 400 →
      get_stories max_stories (.response status items)
        = (findAllLimit max_stories items).filterMap _parse_story_item := by
    intro n status items hstat
    have hs : ¬ 400 ≤ status := by omega
    by_cases he : (findAllLimit n items).isEmpty
    · have : findAllLimit n items = [] := List.isEmpty_iff.mp he
      simp [get_stories, fetch_top_storiesCaught, fetch_top_storiesRun, hs, he, this]
    · simp [get_stories, fetch_top_storiesCaught, fetch_top_storiesRun, hs, he, hloop]
  refine ⟨hloop, hrun, ?_, ?_⟩
  · intro item h
    cases h with
    | inl ht => simp [_parse_story_item, ht]
    | inr hl =>
        cases htitle : item.title with
        | none => simp [_parse_story_item, htitle]
        | some t =>
            cases hpub : item.pubDate with
            | none => simp [_parse_story_item, htitle, hpub]
            | some pd =>
                cases pd with
                | badFormat s => simp [_parse_story_item, htitle, hpub]
                | wellFormed dt => simp [_parse_story_item, htitle, hpub, hl]
  · intro n status items bad good s hstat hbad hbadparse hgood hgoodparse
    rw [hrun n status items hstat]
    intro hnil
    have : _parse_story_item good = none :=
      List.filterMap_eq_nil_iff.mp hnil good hgood
    rw [hgoodparse] at this
    exact Option.noConfusion this

/-- C5 witness: a concrete mixed feed — a valid first item, an invalid
middle item (no link), and a valid last item — yields exactly the two
valid stories in feed order, and the fetch does not fail. -/
theorem C5_filtering_and_order_witness :
    (parseLoop [⟨some "A - S", some "u", some (.wellFormed ⟨2025, 6, 7, 1, 0, 0⟩), none⟩]
      = [⟨some "A - S", some "u", some (.wellFormed ⟨2025, 6, 7, 1, 0, 0⟩),
          none⟩].filterMap _parse_story_item)
    ∧ (get_stories 10 (.response 200
        [⟨some "A - S", some "u1", some (.wellFormed ⟨2025, 6, 7, 1, 0, 0⟩), none⟩,
         ⟨some "B - S", none, some (.wellFormed ⟨2025, 6, 7, 2, 0, 0⟩), none⟩,
         ⟨some "C - S", some "u3", some (.wellFormed ⟨2025, 6, 7, 3, 0, 0⟩), none⟩])
        = (findAllLimit 10
            [⟨some "A - S", some "u1", some (.wellFormed ⟨2025, 6, 7, 1, 0, 0⟩), none⟩,
             ⟨some "B - S", none, some (.wellFormed ⟨2025, 6, 7, 2, 0, 0⟩), none⟩,
             ⟨some "C - S", some "u3", some (.wellFormed ⟨2025, 6, 7, 3, 0, 0⟩),
              none⟩]).filterMap _parse_story_item)
    ∧ _parse_story_item ⟨some "B - S", none, some (.wellFormed ⟨2025, 6, 7, 2, 0, 0⟩), none⟩
        = none
    ∧ get_stories 10 (.response 200
        [⟨some "A - S", some "u1", some (.wellFormed ⟨2025, 6, 7, 1, 0, 0⟩), none⟩,
         ⟨some "B - S", none, some (.wellFormed ⟨2025, 6, 7, 2, 0, 0⟩), none⟩,
         ⟨some "C - S", some "u3", some (.wellFormed ⟨2025, 6, 7, 3, 0, 0⟩), none⟩])
        ≠ [] :=
  ⟨C5_filtering_and_order.1 _,
   C5_filtering_and_order.2.1 10 200 _ (by decide),
   C5_filtering_and_order.2.2.1 _ (Or.inr rfl),
   C5_filtering_and_order.2.2.2 10 200 _
     (⟨some "B - S", none, some (.wellFormed ⟨2025, 6, 7, 2, 0, 0⟩), none⟩)
     (⟨some "A - S", some "u1", some (.wellFormed ⟨2025, 6, 7, 1, 0, 0⟩), none⟩)
     (⟨"A", "u1", "S", .canonical ⟨2025, 6, 7, 1, 0, 0⟩, none, none⟩)
     (by decide) (by decide) (by decide) (by decide) (by decide)⟩

/-- C6: the completion helper never lets an exception escape to the
caller — every backend outcome is caught and mapped to an optional
result; `summarize_article` returns None on an API error or an
unexpected error; `summarize_day` returns None for an empty summary
list with zero backend calls, and None (after its single backend call)
when the backend fails on a non-empty list. -/
theorem C6_summarizer_absent_on_failure :
    (∀ outcome, ∃ r, _generate_completionCaught outcome = .ok r)
    ∧ (∀ content msg, summarize_article content (.apiError msg) = none
        ∧ summarize_article content (.unexpectedError msg) = none)
    ∧ (∀ outcome, summarize_day [] outcome = (none, 0))
    ∧ (∀ s rest msg, summarize_day (s :: rest) (.apiError msg) = (none, 1)
        ∧ summarize_day (s :: rest) (.unexpectedError msg) = (none, 1)) := by
  refine ⟨?_, ?_, ?_, ?_⟩
  · intro outcome
    cases outcome with
    | apiError msg => exact ⟨none, rfl⟩
    | unexpectedError msg => exact ⟨none, rfl⟩
    | completion content =>
        cases content with
        | none => exact ⟨none, rfl⟩
        | some c => exact ⟨some (pyStrip c), rfl⟩
  · intro content msg
    exact ⟨rfl, rfl⟩
  · intro outcome
    rfl
  · intro s rest msg
    constructor <;>
      simp [summarize_day, _generate_completion, _generate_completionCaught,
        _generate_completionRun, PyExc.isException]

/-- C6 witness: concrete failure outcomes. -/
theorem C6_summarizer_absent_on_failure_witness :
    (∃ r, _generate_completionCaught (.apiError "rate limit") = .ok r)
    ∧ summarize_article "text" (.apiError "rate limit") = none
    ∧ summarize_day [] (.completion (some "x")) = (none, 0)
    ∧ summarize_day ["a", "b"] (.apiError "rate limit") = (none, 1) :=
  ⟨C6_summarizer_absent_on_failure.1 (.apiError "rate limit"),
   (C6_summarizer_absent_on_failure.2.1 "text" "rate limit").1,
   C6_summarizer_absent_on_failure.2.2.1 (.completion (some "x")),
   (C6_summarizer_absent_on_failure.2.2.2 "a" ["b"] "rate limit").1⟩

/-- C7 counterexample: the CLI performs no validation of the story
count.  With `--stories 0` (a non-positive count), no date argument,
and a pipeline that reports success, the process starts pipeline work
and exits 0 — not the claimed exit 1 before any pipeline work. -/
theorem C7_no_story_count_validation :
    ((⟨false, none, 0, false, "content", false⟩ : CliArgs).stories ≤ 0)
    ∧ cliMain ⟨false, none, 0, false, "content", false⟩ (.ok true)
        = { exitCode := 0, pipelineStarted := true } := by
  exact ⟨by decide, rfl⟩

/-- C7 (amended): a malformed date argument makes the process report
the error and exit 1 before any pipeline work; a non-positive story
count is not validated and is passed through to the pipeline; for any
well-formed (or absent) date the process starts the pipeline and exits
0 exactly when `generate_digest` returns success, 1 on a failure return
or an uncaught exception. -/
theorem C7_cli_exit_codes :
    ∀ (args : CliArgs) (pipeline : Except PyExc Bool),
      (∀ s, args.date = some (.malformed s) →
        cliMain args pipeline = { exitCode := 1, pipelineStarted := false })
      ∧ ((∀ s, args.date ≠ some (.malformed s)) →
          (cliMain args pipeline).pipelineStarted = true
          ∧ (cliMain args pipeline).exitCode
              = (match pipeline with | .ok true => 0 | _ => 1)) := by
  intro args pipeline
  constructor
  · intro s hs
    simp [cliMain, hs]
  · intro hok
    have hform : cliMain args pipeline =
        (match pipeline with
          | .ok true => { exitCode := 0, pipelineStarted := true }
          | .ok false => { exitCode := 1, pipelineStarted := true }
          | .error _ => { exitCode := 1, pipelineStarted := true }) := by
      cases hd : args.date with
      | none => simp [cliMain, hd]
      | some arg =>
          cases arg with
          | canonical d => simp [cliMain, hd]
          | malformed s => exact absurd hd (hok s)
    cases pipeline with
    | ok b => cases b <;> simp [hform]
    | error e => simp [hform]

/-- C7 witness: concrete invocations — a malformed date exits 1 without
starting the pipeline; a valid invocation with a succeeding pipeline
exits 0. -/
theorem C7_cli_exit_codes_witness :
    cliMain ⟨false, some (.malformed "June 7"), 10, false, "content", false⟩ (.ok true)
        = { exitCode := 1, pipelineStarted := false }
    ∧ ((cliMain ⟨true, some (.canonical ⟨2025, 6, 7⟩), 10, false, "content", false⟩
          (.ok true)).pipelineStarted = true
        ∧ (cliMain ⟨true, some (.canonical ⟨2025, 6, 7⟩), 10, false, "content", false⟩
            (.ok true)).exitCode
            = (match (Except.ok true : Except PyExc Bool) with
                | .ok true => 0 | _ => 1)) :=
  ⟨(C7_cli_exit_codes ⟨false, some (.malformed "June 7"), 10, false, "content", false⟩
      (.ok true)).1 "June 7" rfl,
   (C7_cli_exit_codes ⟨true, some (.canonical ⟨2025, 6, 7⟩), 10, false, "content", false⟩
      (.ok true)).2 (fun s h => by simp at h)⟩

/-- C9 counterexample: with the output directory configured as
`digests`, the artifact path the source computes is still
`content/2025-06-07.md` — `get_file_path` takes no output-directory
argument and joins the fixed literal `content`, so the artifact does
not land under the configured directory. -/
theorem C9_path_ignores_output_dir :
    get_file_path ⟨2025, 1, 1⟩ (some ⟨2025, 6, 7⟩)
        ≠ "digests" ++ "/" ++ fmtDateYMD ⟨2025, 6, 7⟩ ++ ".md"
    ∧ get_file_path ⟨2025, 1, 1⟩ (some ⟨2025, 6, 7⟩) = "content/2025-06-07.md" := by
  exact ⟨by decide, by decide⟩

/-- C9 (amended): the artifact path is computed as the fixed directory
`content` joined with the date formatted `YYYY-MM-DD` plus the `.md`
extension; the helper takes no output-directory argument, so for any
configured output directory other than `content` the computed path does
not lie under it. -/
theorem C9_fixed_content_path :
    (∀ now d, get_file_path now (some d) = "content/" ++ fmtDateYMD d ++ ".md")
    ∧ (∀ now dir d, dir ≠ "content" →
        get_file_path now (some d) ≠ digestPath dir d) := by
  constructor
  · intro now d
    show "content" ++ "/" ++ fmtDateYMD d ++ ".md" = "content/" ++ fmtDateYMD d ++ ".md"
    rw [show ("content" ++ "/" : String) = "content/" from rfl]
  · intro now dir d hdir heq
    apply hdir
    have hdata : ("content" ++ "/" ++ fmtDateYMD d ++ ".md" : String).data
        = (dir ++ "/" ++ fmtDateYMD d ++ ".md" : String).data := congrArg String.data heq
    simp only [String.data_append] at hdata
    have h1 : "content".data ++ "/".data = dir.data ++ "/".data := by
      have h2 := List.append_cancel_right hdata
      exact List.append_cancel_right h2
    have h3 : "content".data = dir.data := List.append_cancel_right h1
    have h4 : String.mk dir.data = String.mk "content".data := congrArg String.mk h3.symm
    exact h4

/-- C9 witness: the amended path computation at a concrete date and a
concrete non-`content` output directory. -/
theorem C9_fixed_content_path_witness :
    get_file_path ⟨2025, 1, 1⟩ (some ⟨2025, 6, 7⟩) = "content/" ++ fmtDateYMD ⟨2025, 6, 7⟩ ++ ".md"
    ∧ get_file_path ⟨2025, 1, 1⟩ (some ⟨2025, 6, 7⟩) ≠ digestPath "digests" ⟨2025, 6, 7⟩ :=
  ⟨C9_fixed_content_path.1 ⟨2025, 1, 1⟩ ⟨2025, 6, 7⟩,
   C9_fixed_content_path.2 ⟨2025, 1, 1⟩ "digests" ⟨2025, 6, 7⟩ (by decide)⟩

/-- C3 counterexample: a hard transport failure and a successful fetch
of an empty feed produce the same observable provider result — the
empty story list — so the Orchestrator cannot distinguish provider
failure from a provider success with zero stories. -/
theorem C3_failure_indistinguishable_from_empty :
    get_stories 10 (.netError "connection refused")
      = get_stories 10 (.response 200 []) := by decide

/-- C3 (amended): a hard fetch error (transport failure or HTTP error
status) makes `get_stories` return the empty list — the same value a
successful zero-story fetch returns — and on an empty story list the
pipeline aborts: it returns failure, leaves the output directory
untouched (writes no artifact), and performs no summarization or write
call; the provider-failure outcome is therefore not distinguishable by
the Orchestrator from a zero-story success. -/
theorem C3_hard_error_aborts_without_artifact :
    (∀ max_stories msg, get_stories max_stories (.netError msg) = [])
    ∧ (∀ max_stories status items, 400 ≤ status →
        get_stories max_stories (.response status items) = [])
    ∧ (∀ cfg d now collab force fs, collab.fetched = [] →
        fsGet fs (digestPath cfg.output_dir d) = none →
        generate_digest cfg d now collab force fs
          = { success := false, fs := fs, trace := ⟨1, 0, 0, 0⟩ }) := by
  refine ⟨?_, ?_, ?_⟩
  · intro n msg
    simp [get_stories, fetch_top_storiesCaught, fetch_top_storiesRun,
      PyExc.isRequestException]
  · intro n status items hs
    simp [get_stories, fetch_top_storiesCaught, fetch_top_storiesRun, hs,
      PyExc.isRequestException]
  · intro cfg d now collab force fs hfetch hnone
    simp [generate_digest, generate_digest_work, hnone, hfetch]

/-- C3 witness: the amended behaviour at concrete inputs — a concrete
network error yields the empty list, a concrete HTTP 503 yields the
empty list, and the orchestrator on an empty fetch over an empty
output directory reports failure with no write. -/
theorem C3_hard_error_aborts_without_artifact_witness :
    get_stories 10 (.netError "timeout") = []
    ∧ get_stories 10 (.response 503 []) = []
    ∧ generate_digest ⟨10, false, "content"⟩ ⟨2025, 6, 7⟩ ⟨2025, 6, 7, 12, 0, 0⟩
        emptyFetchCollab false []
        = { success := false, fs := [], trace := ⟨1, 0, 0, 0⟩ } :=
  ⟨C3_hard_error_aborts_without_artifact.1 10 "timeout",
   C3_hard_error_aborts_without_artifact.2.1 10 503 [] (by decide),
   C3_hard_error_aborts_without_artifact.2.2 ⟨10, false, "content"⟩ ⟨2025, 6, 7⟩
     ⟨2025, 6, 7, 12, 0, 0⟩ emptyFetchCollab false [] rfl rfl⟩

/-- Reading back the path just written. -/
theorem fsGet_fsSet_self (fs : FS) (p c : String) :
    fsGet (fsSet fs p c) p = some c := by
  simp [fsSet, fsGet]

/-- Deleting one path leaves every other path unchanged. -/
theorem fsGet_fsRemove_ne (fs : FS) (q p : String) (h : p ≠ q) :
    fsGet (fsRemove fs q) p = fsGet fs p := by
  induction fs with
  | nil => rfl
  | cons e rest ih =>
      obtain ⟨k, v⟩ := e
      by_cases hk : k = q
      · simp [fsRemove, fsGet, hk, Ne.symm h, ih]
      · by_cases hp : k = p
        · subst hp
          simp [fsRemove, fsGet, hk, h]
        · simp [fsRemove, fsGet, hk, hp, ih]

/-- Writing one path leaves every other path unchanged. -/
theorem fsGet_fsSet_ne (fs : FS) (q c p : String) (h : p ≠ q) :
    fsGet (fsSet fs q c) p = fsGet fs p := by
  have hq : q ≠ p := fun hy => h hy.symm
  simp [fsSet, fsGet, hq]
  exact fsGet_fsRemove_ne fs q p h

/-- The temporary-file path is distinct from the canonical path. -/
theorem tmp_path_ne_self (p : String) : tmp_path p ≠ p := by
  intro h
  have hlen := congrArg String.length h
  simp only [tmp_path, String.length_append] at hlen
  have h4 : (".tmp" : String).length = 4 := rfl
  rw [h4] at hlen
  omega

/-- C2: for every directory state, target path, content and
interruption point, a crash anywhere between the start of the write and
the rename leaves the canonical path holding either the prior content
or the complete new content — never a prefix of a partially flushed
write, which only ever reaches the temporary path; when the writer
reports success the directory is exactly the after-rename state with
the full new content at the canonical path, and when it reports failure
the directory is untouched. -/
theorem C2_write_atomic :
    ∀ (fs : FS) (path content : String) (force : Bool),
      (∀ cp, fsGet (writeCrashState fs path content cp) path = fsGet fs path
          ∨ fsGet (writeCrashState fs path content cp) path = some content)
      ∧ ((write_digest fs path content force).1.success = true →
          (write_digest fs path content force).2
              = writeCrashState fs path content .afterRename
          ∧ fsGet (write_digest fs path content force).2 path = some content)
      ∧ ((write_digest fs path content force).1.success = false →
          (write_digest fs path content force).2 = fs) := by
  intro fs path content force
  have htmp : path ≠ tmp_path path := fun h => tmp_path_ne_self path h.symm
  refine ⟨?_, ?_, ?_⟩
  · intro cp
    cases cp with
    | beforeWork => exact Or.inl rfl
    | duringTempWrite flushed =>
        exact Or.inl (fsGet_fsSet_ne fs (tmp_path path) (pyTake content flushed) path htmp)
    | afterTempWrite =>
        exact Or.inl (fsGet_fsSet_ne fs (tmp_path path) content path htmp)
    | afterRename => exact Or.inr (fsGet_fsSet_self _ path content)
  · intro hsucc
    by_cases hcond : ((fsGet fs path).isSome && !force) = true
    · simp [write_digest, hcond] at hsucc
    · constructor
      · simp [write_digest, hcond, writeCrashState]
      · simp [write_digest, hcond, fsGet_fsSet_self]
  · intro hfail
    by_cases hcond : ((fsGet fs path).isSome && !force) = true
    · simp [write_digest, hcond]
    · simp [write_digest, hcond] at hfail

/-- C2 witness: a concrete forced overwrite succeeds and lands the new
content at the canonical path via the rename, a concrete unforced write
over an existing artifact fails leaving the directory untouched, and a
concrete mid-write crash leaves the prior content in place. -/
theorem C2_write_atomic_witness :
    ((write_digest [("content/2025-06-07.md", "old")] "content/2025-06-07.md" "new" true).2
        = writeCrashState [("content/2025-06-07.md", "old")] "content/2025-06-07.md" "new"
            .afterRename
      ∧ fsGet (write_digest [("content/2025-06-07.md", "old")] "content/2025-06-07.md"
          "new" true).2 "content/2025-06-07.md" = some "new")
    ∧ (write_digest [("content/2025-06-07.md", "old")] "content/2025-06-07.md" "new"
        false).2 = [("content/2025-06-07.md", "old")]
    ∧ (fsGet (writeCrashState [("content/2025-06-07.md", "old")] "content/2025-06-07.md"
          "new" (.duringTempWrite 1)) "content/2025-06-07.md"
          = fsGet [("content/2025-06-07.md", "old")] "content/2025-06-07.md"
        ∨ fsGet (writeCrashState [("content/2025-06-07.md", "old")] "content/2025-06-07.md"
            "new" (.duringTempWrite 1)) "content/2025-06-07.md" = some "new") :=
  ⟨(C2_write_atomic [("content/2025-06-07.md", "old")] "content/2025-06-07.md" "new"
      true).2.1 (by decide),
   (C2_write_atomic [("content/2025-06-07.md", "old")] "content/2025-06-07.md" "new"
      false).2.2 (by decide),
   (C2_write_atomic [("content/2025-06-07.md", "old")] "content/2025-06-07.md" "new"
      false).1 (.duringTempWrite 1)⟩

/-- On a canonical timestamp the relative-time helper always succeeds:
both branches of the hour/day choice return a value. -/
theorem time_ago_canonical_ok (now dt : DateTime) :
    ∃ rel, time_ago now (.canonical dt) = .ok rel := by
  simp only [time_ago]
  split
  · exact ⟨_, rfl⟩
  · exact ⟨_, rfl⟩

/-- Rendering a story whose published timestamp is canonical succeeds. -/
theorem renderStory_ok (now : DateTime) (s : Story)
    (h : ∃ dt, s.published = Timestamp.canonical dt) :
    ∃ block, renderStory now s = .ok block := by
  obtain ⟨dt, hdt⟩ := h
  obtain ⟨rel, hrel⟩ := time_ago_canonical_ok now dt
  refine ⟨"## " ++ s.title ++ "\n\n*" ++ s.source ++ " | " ++ rel ++ "*\n\n"
    ++ storySummaryLine s, ?_⟩
  simp only [renderStory, hdt, hrel]
  rfl

/-- Rendering a list of stories with canonical timestamps succeeds. -/
theorem renderStories_ok (now : DateTime) (stories : List Story)
    (h : ∀ s ∈ stories, ∃ dt, s.published = Timestamp.canonical dt) :
    ∃ blocks, renderStories now stories = .ok blocks := by
  induction stories with
  | nil => exact ⟨[], rfl⟩
  | cons s rest ih =>
      obtain ⟨b, hb⟩ := renderStory_ok now s (h s (List.mem_cons_self s rest))
      obtain ⟨bs, hbs⟩ := ih (fun x hx => h x (List.mem_cons_of_mem s hx))
      exact ⟨b :: bs, by simp only [renderStories, hb, hbs]; rfl⟩

/-- C8: the Digest Assembler is total — for every date, clock reading,
valid (possibly empty) sequence of stories (i.e. stories whose
published timestamps are the canonical strings the Story Provider
produces) and optional overview, assembly and rendering, including the
relative-time annotation computed from each published timestamp,
produce a digest document without any exception escaping. -/
theorem C8_assemble_total :
    ∀ (d : Date) (now : DateTime) (stories : List Story) (overview : Option String),
      (∀ s ∈ stories, ∃ dt, s.published = Timestamp.canonical dt) →
      ∃ content, assemble d now stories overview = .ok content := by
  intro d now stories overview h
  obtain ⟨blocks, hblocks⟩ := renderStories_ok now stories h
  refine ⟨"# News Digest: " ++ format_date_for_title d ++ "\n\n"
    ++ (match overview with
        | some o => "## Overview\n\n" ++ o ++ "\n\n"
        | none => "") ++ pyJoin "\n\n" blocks, ?_⟩
  simp only [assemble, hblocks]
  rfl

/-- C8 witness: assembling two concrete stories — one with an AI
summary, one without, including an empty-overview case — succeeds. -/
theorem C8_assemble_total_witness :
    (∃ content, assemble ⟨2025, 6, 7⟩ ⟨2025, 6, 7, 12, 0, 0⟩
      [⟨"A", "u1", "S", .canonical ⟨2025, 6, 7, 1, 0, 0⟩, some "raw", some "ai"⟩,
       ⟨"B", "u2", "T", .canonical ⟨2025, 6, 6, 23, 0, 0⟩, none, none⟩]
      (some "the overview") = .ok content)
    ∧ (∃ content, assemble ⟨2025, 6, 7⟩ ⟨2025, 6, 7, 12, 0, 0⟩ [] none = .ok content) :=
  ⟨C8_assemble_total ⟨2025, 6, 7⟩ ⟨2025, 6, 7, 12, 0, 0⟩
    [⟨"A", "u1", "S", .canonical ⟨2025, 6, 7, 1, 0, 0⟩, some "raw", some "ai"⟩,
     ⟨"B", "u2", "T", .canonical ⟨2025, 6, 6, 23, 0, 0⟩, none, none⟩]
    (some "the overview")
    (by
      intro s hs
      simp only [List.mem_cons, List.not_mem_nil, or_false] at hs
      rcases hs with hs | hs
      · exact ⟨⟨2025, 6, 7, 1, 0, 0⟩, by rw [hs]⟩
      · exact ⟨⟨2025, 6, 6, 23, 0, 0⟩, by rw [hs]⟩),
   C8_assemble_total ⟨2025, 6, 7⟩ ⟨2025, 6, 7, 12, 0, 0⟩ [] none
    (by intro s hs; exact absurd hs (List.not_mem_nil s))⟩

/-- Whenever a run reports success, the artifact exists at the digest
path afterwards: either the fast path found it already there, or the
write put it there. -/
theorem generate_success_artifact (cfg : OrchConfig) (d : Date) (now : DateTime)
    (collab : Collaborators) (force : Bool) (fs : FS) :
    (generate_digest cfg d now collab force fs).success = true →
    (fsGet ((generate_digest cfg d now collab force fs).fs)
        (digestPath cfg.output_dir d)).isSome = true := by
  intro hsucc
  by_cases hfast : ((fsGet fs (digestPath cfg.output_dir d)).isSome && !force) = true
  · have hex := hfast
    rw [Bool.and_eq_true] at hex
    have hforce : force = false := by
      cases force
      · rfl
      · exact absurd hex.2 (by decide)
    simp [generate_digest, hex.1, hforce]
  · by_cases hempty : collab.fetched.isEmpty
    · simp [generate_digest, generate_digest_work, hfast, hempty] at hsucc
    · cases hasm : assemble d now (storiesWithSummaries cfg collab)
          (overviewCall cfg collab).1 with
      | error e =>
          simp [generate_digest, generate_digest_work, hfast, hempty, hasm] at hsucc
      | ok content =>
          simp [generate_digest, generate_digest_work, hfast, hempty, hasm,
            write_digest, fsGet_fsSet_self]

/-- C1: when an artifact for the date already exists and force is
false, `generate_digest` returns success immediately with the directory
unchanged and zero Story Provider, Summarization Provider and Writer
invocations; and after any first successful unforced run, a second
unforced run for the same date is such a no-op, leaving the directory —
and hence the artifact content — byte-identical to after the first. -/
theorem C1_idempotent_noop :
    ∀ (cfg : OrchConfig) (d : Date) (now : DateTime) (collab : Collaborators) (fs : FS),
      ((fsGet fs (digestPath cfg.output_dir d)).isSome = true →
        generate_digest cfg d now collab false fs
          = { success := true, fs := fs, trace := noWorkTrace })
      ∧ ((generate_digest cfg d now collab false fs).success = true →
          generate_digest cfg d now collab false
              ((generate_digest cfg d now collab false fs).fs)
            = { success := true, fs := (generate_digest cfg d now collab false fs).fs,
                trace := noWorkTrace }) := by
  intro cfg d now collab fs
  have hnoop : ∀ fs0 : FS, (fsGet fs0 (digestPath cfg.output_dir d)).isSome = true →
      generate_digest cfg d now collab false fs0
        = { success := true, fs := fs0, trace := noWorkTrace } := by
    intro fs0 h
    simp [generate_digest, h]
  refine ⟨hnoop fs, ?_⟩
  intro hsucc
  exact hnoop _ (generate_success_artifact cfg d now collab false fs hsucc)

/-- C1 witness: with a concrete pre-existing artifact and force unset,
the run is a success with no collaborator calls and an unchanged
directory, and a repeat run after a successful run is the same no-op. -/
theorem C1_idempotent_noop_witness :
    generate_digest ⟨10, false, "content"⟩ ⟨2025, 6, 7⟩ ⟨2025, 6, 7, 12, 0, 0⟩
        emptyFetchCollab false [("content/2025-06-07.md", "old digest")]
      = { success := true, fs := [("content/2025-06-07.md", "old digest")],
          trace := noWorkTrace }
    ∧ generate_digest ⟨10, false, "content"⟩ ⟨2025, 6, 7⟩ ⟨2025, 6, 7, 12, 0, 0⟩
        emptyFetchCollab false
        ((generate_digest ⟨10, false, "content"⟩ ⟨2025, 6, 7⟩ ⟨2025, 6, 7, 12, 0, 0⟩
            emptyFetchCollab false [("content/2025-06-07.md", "old digest")]).fs)
      = { success := true,
          fs := (generate_digest ⟨10, false, "content"⟩ ⟨2025, 6, 7⟩ ⟨2025, 6, 7, 12, 0, 0⟩
              emptyFetchCollab false [("content/2025-06-07.md", "old digest")]).fs,
          trace := noWorkTrace } :=
  ⟨(C1_idempotent_noop ⟨10, false, "content"⟩ ⟨2025, 6, 7⟩ ⟨2025, 6, 7, 12, 0, 0⟩
      emptyFetchCollab [("content/2025-06-07.md", "old digest")]).1 (by decide),
   (C1_idempotent_noop ⟨10, false, "content"⟩ ⟨2025, 6, 7⟩ ⟨2025, 6, 7, 12, 0, 0⟩
      emptyFetchCollab [("content/2025-06-07.md", "old digest")]).2 (by decide)⟩
